import Mathlib

/-!
Shallow embedding of the authentication and session-revocation core of the
test-taking backend (Flask + flask-jwt-extended + Redis), translated from
`src/backend/app` (the converged variant) and, where a claim cites it, from
the legacy `src/back-end/app` variant.

Modelling conventions:
- Unix timestamps are `Int`; TTLs are `Int` seconds.
- The Redis revocation cache is a list of `(key, absolute expiry)` pairs plus
  an availability flag; an operation on an unavailable cache is an
  `Except.error ()` (the raised exception).
- HTTP handlers are pure state transformers returning the updated stores and
  an `HttpResponse`; handlers that perform no writes return their inputs.
- `flask_jwt_extended.jwt_required` is modelled by `jwt_required_check`:
  signature, expiry, token-kind, then the registered blocklist callback.
-/

namespace Backend

/-- JWT token kind: `access` or `refresh` (the `type` claim). -/
inductive TokenKind where
  | access
  | refresh
deriving DecidableEq, Repr

/-- Decoded JWT claims as used by the backend: subject (user id), kind,
`jti`, issued-at, expiry and the custom `ver` claim (absent in old tokens). -/
structure TokenClaims where
  sub : Nat
  kind : TokenKind
  jti : String
  iat : Int
  exp : Int
  ver : Option Nat
deriving DecidableEq, Repr

/-- A presented token: its decoded claims plus whether its signature checks
out against the server secret. -/
structure Token where
  claims : TokenClaims
  sigValid : Bool
deriving DecidableEq, Repr

/-- A row of the `users` table (src/backend/app/models.py, class User). -/
structure User where
  id : Nat
  first_name : String
  last_name : String
  email : String
  password : String
  token_version : Nat
deriving DecidableEq, Repr

/-- The user store: rows plus the autoincrement counter for primary keys. -/
structure Store where
  users : List User
  nextId : Nat
deriving DecidableEq, Repr

/-- `User.query.filter_by(email=...).first()`. -/
def Store.findByEmail (st : Store) (email : String) : Option User :=
  st.users.find? (fun u => u.email == email)

/-- `User.query.get(uid)`. -/
def Store.findById (st : Store) (uid : Nat) : Option User :=
  st.users.find? (fun u => u.id == uid)

/-- ORM row update: apply `f` to the row with primary key `uid`. -/
def Store.updateUser (st : Store) (uid : Nat) (f : User → User) : Store :=
  { st with users := st.users.map (fun u => if u.id == uid then f u else u) }

/-- The Redis revocation cache: the entries `(key, absolute expiry time)`
together with a reachability flag; any command on an unreachable cache
raises (modelled as `Except.error ()`). -/
structure Redis where
  available : Bool
  entries : List (String × Int)
deriving DecidableEq, Repr

/-- Absolute expiry recorded for `k`, if any entry for `k` exists. -/
def Redis.lookup (r : Redis) (k : String) : Option Int :=
  (r.entries.find? (fun p => p.1 == k)).map (fun p => p.2)

/-- `r.exists(k)` at time `now`: a key counts as present while its TTL has
not elapsed; raises if the cache is unreachable. -/
def Redis.existsKey (r : Redis) (now : Int) (k : String) : Except Unit Bool :=
  if r.available then
    .ok (match r.lookup k with
      | some e => decide (now < e)
      | none => false)
  else .error ()

/-- `r.setex(k, ttl, v)`: store `k` until `now + ttl`, replacing any previous
entry for `k`; raises if the cache is unreachable. -/
def Redis.setex (r : Redis) (now : Int) (k : String) (ttl : Int) : Except Unit Redis :=
  if r.available then
    .ok { r with entries := (k, now + ttl) :: r.entries.filter (fun p => !(p.1 == k)) }
  else .error ()

/-- Namespaced blocklist key for a jti (src/backend/app/__init__.py, `_bl_key`). -/
def _bl_key (jti : String) : String := "bl:" ++ jti

/-- src/backend/app/redis_utils.py, `revoke_jti_with_ttl`: mark the jti
revoked until the token's own expiry, TTL clamped below at 1 second; the
whole body is wrapped in try/except, so a cache failure is swallowed and the
cache is left unchanged. -/
def revoke_jti_with_ttl (r : Redis) (now : Int) (jti : String) (exp_ts : Int) : Redis :=
  let ttl := max 1 (exp_ts - now)
  match r.setex now (_bl_key jti) ttl with
  | .ok r2 => r2
  | .error _ => r

/-- src/backend/app/__init__.py, `token_in_blocklist` (the registered
`token_in_blocklist_loader`): missing/empty jti counts as not revoked; a
cache exception is caught and the token is treated as NOT revoked
(fail-open). -/
def token_in_blocklist (r : Redis) (now : Int) (jti : Option String) : Bool :=
  match jti with
  | none => false
  | some j =>
    if j = "" then false
    else
      match r.existsKey now (_bl_key j) with
      | .ok b => b
      | .error _ => false

/-- src/back-end/app/__init__.py, `token_in_blocklist` (legacy variant):
`return bool(r.exists(f"jwt:blocklist:{jti}"))` with no try/except, so a
cache exception propagates to the caller. -/
def token_in_blocklist_legacy (r : Redis) (now : Int) (jti : String) : Except Unit Bool :=
  r.existsKey now ("jwt:blocklist:" ++ jti)

/-- The ways the `jwt_required` gate can reject a presented token. -/
inductive AuthFail where
  | invalidToken
  | expired
  | wrongKind
  | revoked
deriving DecidableEq, Repr

/-- HTTP response: status code plus the `message` field of the JSON body. -/
structure HttpResponse where
  status : Nat
  message : String
deriving DecidableEq, Repr

/-- Response produced by flask-jwt-extended for each gate failure. -/
def failResponse : AuthFail → HttpResponse
  | .invalidToken => ⟨422, "Invalid token"⟩
  | .expired => ⟨401, "Token has expired"⟩
  | .wrongKind => ⟨422, "Invalid token kind"⟩
  | .revoked => ⟨401, "Token has been revoked"⟩

/-- The `@jwt_required()` / `@jwt_required(refresh=True)` gate: signature,
expiry, token kind, then the registered blocklist callback
(`token_in_blocklist`). `none` means the gate passes and the handler body
runs. -/
def jwt_required_check (r : Redis) (now : Int) (tok : Token) (expect : TokenKind) :
    Option AuthFail :=
  if !tok.sigValid then some .invalidToken
  else if tok.claims.exp ≤ now then some .expired
  else if tok.claims.kind ≠ expect then some .wrongKind
  else if token_in_blocklist r now (some tok.claims.jti) then some .revoked
  else none

/-- src/backend/app/routes/auth_routes.py, `_assert_token_version_or_401`:
reject with 401 when the `ver` claim is absent or differs from the user's
current `token_version`. -/
def _assert_token_version_or_401 (user : User) (token_ver : Option Nat) :
    Option HttpResponse :=
  match token_ver with
  | none => some ⟨401, "Token no longer valid"⟩
  | some v => if user.token_version ≠ v then some ⟨401, "Token no longer valid"⟩ else none

/-- Python `str.strip()`: drop leading and trailing whitespace. -/
def pyStrip (s : String) : String :=
  ⟨((s.data.dropWhile Char.isWhitespace).reverse.dropWhile Char.isWhitespace).reverse⟩

/-- Python `str.lower()`: lowercase every character. -/
def pyLower (s : String) : String := ⟨s.data.map Char.toLower⟩

/-- The normalization `(... or "").strip().lower()` applied to emails in
`register` and `login`. -/
def normalizeEmail (s : String) : String := pyLower (pyStrip s)

/-- Request body of `register`: the four JSON fields, each possibly absent. -/
structure RegisterRequest where
  first_name : Option String
  last_name : Option String
  email : Option String
  password : Option String
deriving DecidableEq, Repr

/-- src/backend/app/routes/auth_routes.py, `register`: trim the name fields,
normalize the email (strip + lowercase), require all four fields non-empty,
reject a duplicate email with 400, otherwise insert the new row (hashed
password, `token_version` defaulting to 1). `hash` stands for
`bcrypt.generate_password_hash`. -/
def register (hash : String → String) (st : Store) (req : RegisterRequest) :
    Store × HttpResponse :=
  let first_name := pyStrip (req.first_name.getD "")
  let last_name := pyStrip (req.last_name.getD "")
  let email := normalizeEmail (req.email.getD "")
  let password := req.password.getD ""
  if first_name = "" ∨ last_name = "" ∨ email = "" ∨ password = "" then
    (st, ⟨400, "Missing required fields"⟩)
  else if (st.findByEmail email).isSome then
    (st, ⟨400, "User already exists"⟩)
  else
    let newUser : User :=
      { id := st.nextId, first_name := first_name, last_name := last_name,
        email := email, password := hash password, token_version := 1 }
    ({ users := st.users ++ [newUser], nextId := st.nextId + 1 },
     ⟨201, "User registered successfully"⟩)

/-- Outcome of `login`: missing fields (400), invalid credentials (401), or
success with the user id and the freshly issued access and refresh tokens. -/
inductive LoginOutcome where
  | missing
  | invalid
  | ok (userId : Nat) (access : TokenClaims) (refresh : TokenClaims)
deriving DecidableEq, Repr

/-- src/backend/app/routes/auth_routes.py, `login`: normalize the email, look
the user up, and reject with one shared 401 if the user is absent OR the
bcrypt check fails — `if not user or not bcrypt.check_password_hash(...)`
short-circuits, so the hash comparison runs only when the user exists. The
second component counts how many password-hash comparisons were performed.
On success both tokens carry `ver = user.token_version`; the access token
lives 15 minutes, the refresh token 30 days. `checkHash` stands for
`bcrypt.check_password_hash`; `jtiA`/`jtiR` are the fresh jtis. -/
def login (checkHash : String → String → Bool) (st : Store) (now : Int)
    (jtiA jtiR : String) (email? pw? : Option String) : LoginOutcome × Nat :=
  let email := normalizeEmail (email?.getD "")
  let password := pw?.getD ""
  if email = "" ∨ password = "" then (.missing, 0)
  else
    match st.findByEmail email with
    | none => (.invalid, 0)
    | some user =>
      if !checkHash user.password password then (.invalid, 1)
      else
        (.ok user.id
          { sub := user.id, kind := .access, jti := jtiA, iat := now,
            exp := now + 15 * 60, ver := some user.token_version }
          { sub := user.id, kind := .refresh, jti := jtiR, iat := now,
            exp := now + 30 * 24 * 60 * 60, ver := some user.token_version },
         1)

/-- src/backend/app/routes/auth_routes.py, `refresh`
(`@jwt_required(refresh=True)`): gate, user lookup, epoch check, then issue a
new access token stamped with the user's CURRENT `token_version`. The
handler performs no writes, so the store and cache are returned unchanged.
`jtiNew` is the fresh jti of the issued access token. -/
def refresh (st : Store) (r : Redis) (now : Int) (tok : Token) (jtiNew : String) :
    Store × Redis × HttpResponse × Option TokenClaims :=
  match jwt_required_check r now tok .refresh with
  | some f => (st, r, failResponse f, none)
  | none =>
    match st.findById tok.claims.sub with
    | none => (st, r, ⟨404, "User not found"⟩, none)
    | some user =>
      match _assert_token_version_or_401 user tok.claims.ver with
      | some resp => (st, r, resp, none)
      | none =>
        (st, r, ⟨200, "refreshed"⟩,
         some { sub := user.id, kind := .access, jti := jtiNew, iat := now,
                exp := now + 15 * 60, ver := some user.token_version })

/-- src/backend/app/routes/auth_routes.py, `logout` (`@jwt_required()`):
gate for an access token, then revoke the presented token's jti until its
own `exp`. -/
def logout (r : Redis) (now : Int) (tok : Token) : Redis × HttpResponse :=
  match jwt_required_check r now tok .access with
  | some f => (r, failResponse f)
  | none => (revoke_jti_with_ttl r now tok.claims.jti tok.claims.exp, ⟨200, "Logged out"⟩)

/-- src/backend/app/routes/auth_routes.py, `logout_refresh`
(`@jwt_required(refresh=True)`): same as `logout` for the refresh token. -/
def logout_refresh (r : Redis) (now : Int) (tok : Token) : Redis × HttpResponse :=
  match jwt_required_check r now tok .refresh with
  | some f => (r, failResponse f)
  | none =>
    (revoke_jti_with_ttl r now tok.claims.jti tok.claims.exp,
     ⟨200, "Refresh token revoked"⟩)

/-- src/backend/app/routes/auth_routes.py, `logout_all` (`@jwt_required()`):
gate, user lookup, epoch check, then `user.token_version += 1` and commit. -/
def logout_all (st : Store) (r : Redis) (now : Int) (tok : Token) :
    Store × HttpResponse :=
  match jwt_required_check r now tok .access with
  | some f => (st, failResponse f)
  | none =>
    match st.findById tok.claims.sub with
    | none => (st, ⟨404, "User not found"⟩)
    | some user =>
      match _assert_token_version_or_401 user tok.claims.ver with
      | some resp => (st, resp)
      | none =>
        (st.updateUser user.id (fun u => { u with token_version := u.token_version + 1 }),
         ⟨200, "All sessions revoked"⟩)

/-- src/backend/app/routes/auth_routes.py, `me` (`@jwt_required()`): gate,
user lookup, epoch check, then return the public profile fields. -/
def me (st : Store) (r : Redis) (now : Int) (tok : Token) :
    HttpResponse × Option (Nat × String × String × String) :=
  match jwt_required_check r now tok .access with
  | some f => (failResponse f, none)
  | none =>
    match st.findById tok.claims.sub with
    | none => (⟨404, "User not found"⟩, none)
    | some user =>
      match _assert_token_version_or_401 user tok.claims.ver with
      | some resp => (resp, none)
      | none => (⟨200, "ok"⟩, some (user.id, user.first_name, user.last_name, user.email))

/-!
Interleaving model of the epoch bump in `logout_all`
(src/backend/app/routes/auth_routes.py lines 141-142):
`user.token_version += 1` reads the current value into the ORM session and
`db.session.commit()` writes back the incremented in-memory value. Each
concurrent `logout_all` request therefore performs two store-level events on
the shared `token_version` column: a read, then a write of (read value + 1).
-/

/-- One store-level event of thread `t`'s epoch bump: `read t` loads the
current `token_version` into the request's ORM session; `write t` commits
back that loaded value plus one. -/
inductive RmwEvent where
  | read (t : Nat)
  | write (t : Nat)
deriving DecidableEq, Repr

/-- The thread performing the event. -/
def RmwEvent.tid : RmwEvent → Nat
  | .read t => t
  | .write t => t

/-- Shared state of the racing bumps: the stored `token_version` plus each
thread's most recently read value. -/
structure RmwState where
  cell : Nat
  regs : List (Nat × Nat)
deriving DecidableEq, Repr

/-- The value thread `t` last read (0 if it has not read yet). -/
def RmwState.getReg (s : RmwState) (t : Nat) : Nat :=
  ((s.regs.find? (fun p => p.1 == t)).map (fun p => p.2)).getD 0

/-- Execute one store-level event. -/
def rmwStep (s : RmwState) : RmwEvent → RmwState
  | .read t => { s with regs := (t, s.cell) :: s.regs }
  | .write t => { s with cell := s.getReg t + 1 }

/-- Execute a schedule of store-level events in order. -/
def rmwRun (s : RmwState) : List RmwEvent → RmwState
  | [] => s
  | e :: es => rmwRun (rmwStep s e) es

/-- `sched` is an interleaving of the epoch bumps of threads `0..n-1`: each
thread contributes exactly one read followed by its one write, in program
order. -/
def isInterleaving (n : Nat) (sched : List RmwEvent) : Bool :=
  sched.length == 2 * n &&
  (List.range n).all (fun t =>
    sched.filter (fun e => e.tid == t) == [.read t, .write t])

/-- The fully sequential schedule: each request's bump completes (commit
included) before the next one reads. -/
def seqSched : Nat → List RmwEvent
  | 0 => []
  | n + 1 => .read n :: .write n :: seqSched n

/-- C6: `revoke_jti_with_ttl` marks the jti revoked with TTL exactly
`max 1 (exp_ts - now)` — the token's own remaining lifetime clamped below at
one second — so the recorded absolute expiry is `now + max 1 (exp_ts - now)`
and the TTL is never zero or negative, even for an already expired token. -/
theorem C6_revoke_ttl_clamped (r : Redis) (now : Int) (jti : String) (exp_ts : Int)
    (h : r.available = true) :
    (revoke_jti_with_ttl r now jti exp_ts).lookup (_bl_key jti)
      = some (now + max 1 (exp_ts - now))
    ∧ 1 ≤ max 1 (exp_ts - now) := by
  constructor
  · simp [revoke_jti_with_ttl, Redis.setex, h, Redis.lookup]
  · exact le_max_left 1 _

/-- Witness for C6 at a concrete cache, jti and timestamps. -/
theorem C6_revoke_ttl_clamped_witness :
    (revoke_jti_with_ttl ⟨true, []⟩ 100 "j" 160).lookup (_bl_key "j")
      = some (100 + max 1 (160 - 100))
    ∧ (1 : Int) ≤ max 1 (160 - 100) :=
  C6_revoke_ttl_clamped ⟨true, []⟩ 100 "j" 160 rfl

/-- C3 counterexample: with the revocation cache unreachable, the legacy
variant's blocklist check (src/back-end/app/__init__.py) propagates the cache
fault to its caller instead of treating the token as not revoked, while the
converged backend variant returns `false` (not revoked). The claim that the
cache fault is never surfaced to the caller is therefore false for the code
as a whole. -/
theorem C3_counterexample :
    token_in_blocklist_legacy ⟨false, []⟩ 0 "abc" = Except.error ()
    ∧ token_in_blocklist ⟨false, []⟩ 0 (some "abc") = false :=
  ⟨rfl, rfl⟩

/-- C3 amended: in the converged backend variant, a token verification whose
revocation-cache lookup fails proceeds treating the token as not revoked
(fail-open) and the gate passes an otherwise valid token; the legacy
back-end variant instead propagates the cache exception to its caller. -/
theorem C3_fail_open_backend_variant (es : List (String × Int)) (now : Int) (tok : Token)
    (hs : tok.sigValid = true) (he : now < tok.claims.exp)
    (hk : tok.claims.kind = TokenKind.access) :
    jwt_required_check ⟨false, es⟩ now tok .access = none
    ∧ (∀ j, token_in_blocklist ⟨false, es⟩ now j = false)
    ∧ (∀ s, token_in_blocklist_legacy ⟨false, es⟩ now s = Except.error ()) := by
  have hbl : ∀ j, token_in_blocklist ⟨false, es⟩ now j = false := by
    intro j
    cases j with
    | none => rfl
    | some s => simp [token_in_blocklist, Redis.existsKey]
  refine ⟨?_, hbl, fun s => rfl⟩
  simp [jwt_required_check, hs, hk, hbl, not_le.mpr he]

/-- Witness for the amended C3 at a concrete token and unreachable cache. -/
theorem C3_fail_open_backend_variant_witness :
    jwt_required_check ⟨false, []⟩ 0 ⟨⟨1, .access, "j", 0, 100, some 1⟩, true⟩ .access
      = none :=
  (C3_fail_open_backend_variant [] 0 ⟨⟨1, .access, "j", 0, 100, some 1⟩, true⟩
    rfl (by decide) rfl).1

/-- C10: when the revocation-cache write inside `revoke_jti_with_ttl` raises
(cache unreachable), the exception is caught and discarded: `logout` and
`logout_refresh` still answer 200 with the cache left unchanged, and once
the cache is reachable again the supposedly logged-out token still passes
the verification gate until it expires. -/
theorem C10_logout_ok_despite_cache_failure (es : List (String × Int)) (now now2 : Int)
    (tokA tokR : Token)
    (hsA : tokA.sigValid = true) (heA : now < tokA.claims.exp)
    (hkA : tokA.claims.kind = TokenKind.access)
    (hsR : tokR.sigValid = true) (heR : now < tokR.claims.exp)
    (hkR : tokR.claims.kind = TokenKind.refresh)
    (hn2 : now2 < tokA.claims.exp)
    (hb2 : token_in_blocklist ⟨true, es⟩ now2 (some tokA.claims.jti) = false) :
    logout ⟨false, es⟩ now tokA = (⟨false, es⟩, ⟨200, "Logged out"⟩)
    ∧ logout_refresh ⟨false, es⟩ now tokR = (⟨false, es⟩, ⟨200, "Refresh token revoked"⟩)
    ∧ jwt_required_check ⟨true, es⟩ now2 tokA .access = none := by
  have hbl : ∀ j, token_in_blocklist ⟨false, es⟩ now j = false := by
    intro j
    cases j with
    | none => rfl
    | some s => simp [token_in_blocklist, Redis.existsKey]
  refine ⟨?_, ?_, ?_⟩
  · simp [logout, jwt_required_check, hsA, hkA, hbl, not_le.mpr heA,
      revoke_jti_with_ttl, Redis.setex]
  · simp [logout_refresh, jwt_required_check, hsR, hkR, hbl, not_le.mpr heR,
      revoke_jti_with_ttl, Redis.setex]
  · simp [jwt_required_check, hsA, hkA, hb2, not_le.mpr hn2]

/-- Witness for C10 at concrete tokens with an unreachable then recovered
cache. -/
theorem C10_logout_ok_despite_cache_failure_witness :
    logout ⟨false, []⟩ 0 ⟨⟨1, .access, "ja", 0, 900, some 1⟩, true⟩
      = (⟨false, []⟩, ⟨200, "Logged out"⟩)
    ∧ logout_refresh ⟨false, []⟩ 0 ⟨⟨1, .refresh, "jr", 0, 5000, some 1⟩, true⟩
      = (⟨false, []⟩, ⟨200, "Refresh token revoked"⟩)
    ∧ jwt_required_check ⟨true, []⟩ 10 ⟨⟨1, .access, "ja", 0, 900, some 1⟩, true⟩ .access
      = none :=
  C10_logout_ok_despite_cache_failure [] 0 10
    ⟨⟨1, .access, "ja", 0, 900, some 1⟩, true⟩
    ⟨⟨1, .refresh, "jr", 0, 5000, some 1⟩, true⟩
    rfl (by decide) rfl rfl (by decide) rfl (by decide) (by decide)

/-- C4 counterexample: presenting an already revoked (still unexpired) access
token to `logout` is answered 401 "Token has been revoked" by the
`jwt_required` gate, not the claimed Ok — `logout` is not idempotent. -/
theorem C4_counterexample :
    logout ⟨true, [("bl:j1", 1000)]⟩ 5 ⟨⟨1, .access, "j1", 0, 1000, some 1⟩, true⟩
      = (⟨true, [("bl:j1", 1000)]⟩, ⟨401, "Token has been revoked"⟩)
    ∧ (⟨401, "Token has been revoked"⟩ : HttpResponse) ≠ ⟨200, "Logged out"⟩ := by
  exact ⟨rfl, by decide⟩

/-- C4 amended: calling `logout` with an already revoked or already expired
token is not an Ok no-op — the `jwt_required` gate rejects it with 401
("Token has expired" / "Token has been revoked") before the handler body
runs; in both cases the revocation cache is left unchanged. -/
theorem C4_amended_not_idempotent (r : Redis) (now : Int) (tok : Token)
    (hs : tok.sigValid = true) (hk : tok.claims.kind = TokenKind.access) :
    (tok.claims.exp ≤ now → logout r now tok = (r, ⟨401, "Token has expired"⟩))
    ∧ (now < tok.claims.exp →
        token_in_blocklist r now (some tok.claims.jti) = true →
        logout r now tok = (r, ⟨401, "Token has been revoked"⟩)) := by
  constructor
  · intro hexp
    simp [logout, jwt_required_check, hs, hexp, failResponse]
  · intro hlt hrev
    simp [logout, jwt_required_check, hs, hk, hrev, not_le.mpr hlt, failResponse]

/-- Witness for the amended C4: a concrete already-revoked token is rejected
with 401 and the cache is unchanged. -/
theorem C4_amended_not_idempotent_witness :
    logout ⟨true, [("bl:j2", 2000)]⟩ 7 ⟨⟨2, .access, "j2", 0, 2000, some 1⟩, true⟩
      = (⟨true, [("bl:j2", 2000)]⟩, ⟨401, "Token has been revoked"⟩) :=
  (C4_amended_not_idempotent ⟨true, [("bl:j2", 2000)]⟩ 7
    ⟨⟨2, .access, "j2", 0, 2000, some 1⟩, true⟩ rfl rfl).2 (by decide) (by decide)

/-- C7 counterexample: with one registered user `bob@example.com`, a login
for an unknown email and a login for Bob with a wrong password both answer
the same invalid-credentials result, but the unknown-email path performs 0
password-hash comparisons while the wrong-password path performs 1 — the
credential check is not constant-time across the two failure causes. -/
theorem C7_counterexample :
    login (fun h p => h == "h:" ++ p)
        ⟨[⟨1, "Bob", "B", "bob@example.com", "h:pw", 1⟩], 2⟩
        0 "a" "r" (some "alice@example.com") (some "x") = (.invalid, 0)
    ∧ login (fun h p => h == "h:" ++ p)
        ⟨[⟨1, "Bob", "B", "bob@example.com", "h:pw", 1⟩], 2⟩
        0 "a" "r" (some "bob@example.com") (some "wrong") = (.invalid, 1)
    ∧ (0 : Nat) ≠ 1 := by
  exact ⟨rfl, rfl, by decide⟩

/-- C7 amended: for every failing login, the response is the same
invalid-credentials outcome whether the email is unknown or the password
wrong, so the two causes are indistinguishable by response content; but the
password-hash comparison is short-circuited, running 0 times when no user
matches the email and 1 time when the user exists, so the two causes remain
distinguishable by the comparison work performed (timing). -/
theorem C7_amended_same_response_different_work
    (chk : String → String → Bool) (st : Store) (now : Int) (jA jR : String)
    (e1 p1 e2 p2 : String) (u : User)
    (he1 : normalizeEmail e1 ≠ "") (hp1 : p1 ≠ "")
    (h1 : st.findByEmail (normalizeEmail e1) = none)
    (he2 : normalizeEmail e2 ≠ "") (hp2 : p2 ≠ "")
    (h2 : st.findByEmail (normalizeEmail e2) = some u)
    (hc : chk u.password p2 = false) :
    login chk st now jA jR (some e1) (some p1) = (.invalid, 0)
    ∧ login chk st now jA jR (some e2) (some p2) = (.invalid, 1) := by
  constructor
  · simp [login, he1, hp1, h1]
  · simp [login, he2, hp2, h2, hc]

/-- Witness for the amended C7 at the concrete one-user store. -/
theorem C7_amended_same_response_different_work_witness :
    login (fun h p => h == "h:" ++ p)
        ⟨[⟨1, "Bob", "B", "bob@example.com", "h:pw", 1⟩], 2⟩
        3 "a" "r" (some " Carol@X.com ") (some "x") = (.invalid, 0)
    ∧ login (fun h p => h == "h:" ++ p)
        ⟨[⟨1, "Bob", "B", "bob@example.com", "h:pw", 1⟩], 2⟩
        3 "a" "r" (some " Bob@Example.com ") (some "wrong") = (.invalid, 1) :=
  C7_amended_same_response_different_work (fun h p => h == "h:" ++ p)
    ⟨[⟨1, "Bob", "B", "bob@example.com", "h:pw", 1⟩], 2⟩ 3 "a" "r"
    " Carol@X.com " "x" " Bob@Example.com " "wrong"
    ⟨1, "Bob", "B", "bob@example.com", "h:pw", 1⟩
    (by decide) (by decide) (by decide) (by decide) (by decide) (by decide) (by decide)

/-- C8 counterexample: the interleaving in which both racing `logout_all`
bumps read `token_version = 1` before either commits is a valid interleaving
of two bumps, yet it leaves the version at 2, not the claimed 1 + 2 — the
read-modify-write bump loses an increment. -/
theorem C8_counterexample :
    isInterleaving 2 [.read 0, .read 1, .write 0, .write 1] = true
    ∧ (rmwRun ⟨1, []⟩ [.read 0, .read 1, .write 0, .write 1]).cell = 2
    ∧ (2 : Nat) ≠ 1 + 2 := by
  decide

/-- C8 amended: the epoch bump in `logout_all` is a read-modify-write
(`user.token_version += 1` then commit), not an atomic store-level
increment: when the N bumps run sequentially — each commit completing before
the next read — `token_version` increases by exactly N, but concurrent
interleavings can lose increments. -/
theorem C8_sequential_bumps_add_n (n v : Nat) (regs : List (Nat × Nat)) :
    (rmwRun ⟨v, regs⟩ (seqSched n)).cell = v + n := by
  induction n generalizing v regs with
  | zero => rfl
  | succ n ih =>
    calc (rmwRun ⟨v, regs⟩ (seqSched (n + 1))).cell
        = (rmwRun ⟨v + 1, (n, v) :: regs⟩ (seqSched n)).cell := by
          simp [seqSched, rmwRun, rmwStep, RmwState.getReg]
      _ = v + 1 + n := ih (v + 1) ((n, v) :: regs)
      _ = v + (n + 1) := by omega

/-- C5: for a valid refresh token whose `ver` equals the user's current
`token_version`, `refresh` answers 200 with a new access token stamped with
the `token_version` read from the store at refresh time; the operation
performs no writes — the store and the revocation cache come back unchanged
and the refresh token's jti is not revoked — so the very same refresh token
refreshes again identically from the resulting state. -/
theorem C5_refresh_no_rotation (st : Store) (r : Redis) (now : Int) (tok : Token)
    (jtiNew : String) (user : User)
    (hs : tok.sigValid = true) (he : now < tok.claims.exp)
    (hk : tok.claims.kind = TokenKind.refresh)
    (hb : token_in_blocklist r now (some tok.claims.jti) = false)
    (hu : st.findById tok.claims.sub = some user)
    (hv : tok.claims.ver = some user.token_version) :
    refresh st r now tok jtiNew
      = (st, r, ⟨200, "refreshed"⟩,
         some { sub := user.id, kind := .access, jti := jtiNew, iat := now,
                exp := now + 15 * 60, ver := some user.token_version })
    ∧ refresh (refresh st r now tok jtiNew).1 (refresh st r now tok jtiNew).2.1 now tok jtiNew
      = refresh st r now tok jtiNew := by
  have h1 : refresh st r now tok jtiNew
      = (st, r, ⟨200, "refreshed"⟩,
         some { sub := user.id, kind := .access, jti := jtiNew, iat := now,
                exp := now + 15 * 60, ver := some user.token_version }) := by
    simp [refresh, jwt_required_check, hs, hk, hb, not_le.mpr he, hu, hv,
      _assert_token_version_or_401]
  exact ⟨h1, by rw [h1]; exact h1⟩

/-- Witness for C5 at a concrete store, cache and refresh token. -/
theorem C5_refresh_no_rotation_witness :
    refresh ⟨[⟨1, "A", "B", "a@x.com", "h", 3⟩], 2⟩ ⟨true, []⟩ 0
        ⟨⟨1, .refresh, "jr", 0, 100, some 3⟩, true⟩ "jn"
      = (⟨[⟨1, "A", "B", "a@x.com", "h", 3⟩], 2⟩, ⟨true, []⟩, ⟨200, "refreshed"⟩,
         some { sub := 1, kind := .access, jti := "jn", iat := 0,
                exp := 0 + 15 * 60, ver := some 3 }) :=
  (C5_refresh_no_rotation ⟨[⟨1, "A", "B", "a@x.com", "h", 3⟩], 2⟩ ⟨true, []⟩ 0
    ⟨⟨1, .refresh, "jr", 0, 100, some 3⟩, true⟩ "jn" ⟨1, "A", "B", "a@x.com", "h", 3⟩
    rfl (by decide) rfl (by decide) (by decide) rfl).1

/-- C9: a successful registration followed by a second registration whose
email normalizes (strip + lowercase) to the same stored email fails with the
duplicate-email 400 and leaves the store unchanged — no new row is
created. -/
theorem C9_duplicate_email (hash : String → String) (st st1 : Store)
    (req1 req2 : RegisterRequest)
    (hreg : register hash st req1 = (st1, ⟨201, "User registered successfully"⟩))
    (hdup : normalizeEmail (req2.email.getD "")
      = normalizeEmail (req1.email.getD ""))
    (hf2 : pyStrip (req2.first_name.getD "") ≠ "")
    (hl2 : pyStrip (req2.last_name.getD "") ≠ "")
    (hp2 : req2.password.getD "" ≠ "") :
    register hash st1 req2 = (st1, ⟨400, "User already exists"⟩) := by
  unfold register at hreg
  simp only [] at hreg
  split at hreg
  · simp at hreg
  · split at hreg
    · simp at hreg
    · next hfields hnodup =>
      have hst1 : st1 = { users := st.users ++
          [{ id := st.nextId,
             first_name := pyStrip (req1.first_name.getD ""),
             last_name := pyStrip (req1.last_name.getD ""),
             email := normalizeEmail (req1.email.getD ""),
             password := hash (req1.password.getD ""),
             token_version := 1 }], nextId := st.nextId + 1 } := by
        have := congrArg Prod.fst hreg
        simp at this
        exact this.symm
      have hemail1 : normalizeEmail (req1.email.getD "") ≠ "" := by
        intro h
        exact hfields (Or.inr (Or.inr (Or.inl h)))
      have hsome : (st1.findByEmail (normalizeEmail (req1.email.getD ""))).isSome := by
        rw [hst1]
        apply List.find?_isSome.mpr
        refine ⟨_, List.mem_append_right _ (List.mem_singleton.mpr rfl), ?_⟩
        simp
      simp [register, hdup, hf2, hl2, hp2, hemail1, hsome]

/-- Witness for C9: registering alice twice (second time with different
case and padding) fails with the duplicate message and an unchanged store. -/
theorem C9_duplicate_email_witness :
    register (fun s => "h:" ++ s)
        ⟨[⟨1, "Alice", "A", "alice@example.com", "h:pw", 1⟩], 2⟩
        ⟨some "Alice", some "A", some " ALICE@Example.com ", some "pw2"⟩
      = (⟨[⟨1, "Alice", "A", "alice@example.com", "h:pw", 1⟩], 2⟩,
         ⟨400, "User already exists"⟩) :=
  C9_duplicate_email (fun s => "h:" ++ s) ⟨[], 1⟩
    ⟨[⟨1, "Alice", "A", "alice@example.com", "h:pw", 1⟩], 2⟩
    ⟨some " Alice ", some "A", some "alice@example.com", some "pw"⟩
    ⟨some "Alice", some "A", some " ALICE@Example.com ", some "pw2"⟩
    (by decide) (by decide) (by decide) (by decide) (by decide)

/-- Blocklist keys are injective in the jti: `bl:` prefixed strings agree
exactly when the jtis do. -/
theorem bl_key_inj {a b : String} (h : _bl_key a = _bl_key b) : a = b := by
  unfold _bl_key at h
  have h2 := congrArg String.data h
  simp at h2
  exact String.ext h2

/-- Looking a key up after filtering out a different key is the same as
looking it up in the original entry list. -/
theorem find?_filter_keyne (l : List (String × Int)) (k k' : String) (hne : k' ≠ k) :
    (l.filter (fun p => !(p.1 == k))).find? (fun p => p.1 == k')
      = l.find? (fun p => p.1 == k') := by
  induction l with
  | nil => rfl
  | cons a l ih =>
    rcases eq_or_ne a.1 k with h | h
    · have hfa : (!(a.1 == k)) = false := by simp [h]
      have hpk : (a.1 == k') = false := by
        simp [h]
        exact Ne.symm hne
      simp [List.filter_cons, hfa, List.find?_cons, hpk, ih]
    · have hfa : (!(a.1 == k)) = true := by simp [h]
      cases hpa : (a.1 == k') <;>
        simp [List.filter_cons, hfa, List.find?_cons, hpa, ih]

/-- Revoking one jti does not change the blocklist verdict for any other
jti: the revocation marker is keyed per-jti. -/
theorem blocklist_revoke_other (r : Redis) (now now2 exp_ts : Int) (jti j' : String)
    (hne : j' ≠ jti) :
    token_in_blocklist (revoke_jti_with_ttl r now jti exp_ts) now2 (some j')
      = token_in_blocklist r now2 (some j') := by
  by_cases hav : r.available
  · have hkne : _bl_key j' ≠ _bl_key jti := fun h => hne (bl_key_inj h)
    have hhd : (_bl_key jti == _bl_key j') = false := by
      simp
      exact Ne.symm hkne
    simp [token_in_blocklist, revoke_jti_with_ttl, Redis.setex, hav,
      Redis.existsKey, Redis.lookup, List.find?_cons, hhd,
      find?_filter_keyne _ _ _ hkne]
  · have hav' : r.available = false := by simpa using hav
    simp [revoke_jti_with_ttl, Redis.setex, hav']

/-- C2: presenting a valid access token to `logout` inserts its jti into the
revocation cache, after which verification of that same token fails with
Revoked (while it is unexpired); any other otherwise-valid token with a
distinct jti — in particular another token of the same user — still passes
verification: revocation is keyed per-jti, not per-user. -/
theorem C2_logout_revokes_per_jti (r : Redis) (now now2 now3 : Int)
    (tok tok' : Token) (expect' : TokenKind)
    (hav : r.available = true)
    (hs : tok.sigValid = true) (he : now < tok.claims.exp)
    (hk : tok.claims.kind = TokenKind.access)
    (hj : tok.claims.jti ≠ "")
    (hb : token_in_blocklist r now (some tok.claims.jti) = false)
    (hn2 : now2 < tok.claims.exp)
    (hs' : tok'.sigValid = true) (hn3 : now3 < tok'.claims.exp)
    (hk' : tok'.claims.kind = expect')
    (hne : tok'.claims.jti ≠ tok.claims.jti)
    (hb' : token_in_blocklist r now3 (some tok'.claims.jti) = false) :
    (logout r now tok).2 = ⟨200, "Logged out"⟩
    ∧ jwt_required_check (logout r now tok).1 now2 tok .access = some AuthFail.revoked
    ∧ jwt_required_check (logout r now tok).1 now3 tok' expect' = none := by
  have hlo : logout r now tok
      = (revoke_jti_with_ttl r now tok.claims.jti tok.claims.exp, ⟨200, "Logged out"⟩) := by
    simp [logout, jwt_required_check, hs, hk, hb, not_le.mpr he]
  refine ⟨by rw [hlo], ?_, ?_⟩
  · rw [hlo]
    have hexp_le : tok.claims.exp ≤ now + max 1 (tok.claims.exp - now) := by
      have h := le_max_right (1 : Int) (tok.claims.exp - now)
      omega
    have hlt : now2 < now + max 1 (tok.claims.exp - now) := lt_of_lt_of_le hn2 hexp_le
    have hrev : token_in_blocklist (revoke_jti_with_ttl r now tok.claims.jti tok.claims.exp)
        now2 (some tok.claims.jti) = true := by
      simp [token_in_blocklist, hj, revoke_jti_with_ttl, Redis.setex, hav,
        Redis.existsKey, Redis.lookup, List.find?_cons, hlt]
    simp [jwt_required_check, hs, hk, not_le.mpr hn2, hrev]
  · rw [hlo]
    have hstable := blocklist_revoke_other r now now3 tok.claims.exp
      tok.claims.jti tok'.claims.jti hne
    simp [jwt_required_check, hs', hk', not_le.mpr hn3, hstable, hb']

/-- Witness for C2 at a concrete cache and two concrete same-user tokens. -/
theorem C2_logout_revokes_per_jti_witness :
    (logout ⟨true, []⟩ 0 ⟨⟨1, .access, "j1", 0, 1000, some 1⟩, true⟩).2
      = ⟨200, "Logged out"⟩
    ∧ jwt_required_check (logout ⟨true, []⟩ 0 ⟨⟨1, .access, "j1", 0, 1000, some 1⟩, true⟩).1
        10 ⟨⟨1, .access, "j1", 0, 1000, some 1⟩, true⟩ .access = some AuthFail.revoked
    ∧ jwt_required_check (logout ⟨true, []⟩ 0 ⟨⟨1, .access, "j1", 0, 1000, some 1⟩, true⟩).1
        20 ⟨⟨1, .access, "j2", 0, 1000, some 1⟩, true⟩ .access = none :=
  C2_logout_revokes_per_jti ⟨true, []⟩ 0 10 20
    ⟨⟨1, .access, "j1", 0, 1000, some 1⟩, true⟩
    ⟨⟨1, .access, "j2", 0, 1000, some 1⟩, true⟩ .access
    rfl rfl (by decide) rfl (by decide) (by decide) (by decide)
    rfl (by decide) rfl (by decide) (by decide)

/-- C1: a gate-valid token whose `ver` claim is strictly below the user's
current `token_version` is rejected with 401 "Token no longer valid" by each
epoch-checked operation (`refresh`, `logout_all`, `me`); a successful
`logout_all` bumps `token_version` by one, so every token carrying the old
epoch fails those operations afterwards, while a token carrying the new
epoch passes each of them. -/
theorem C1_stale_epoch_rejection (st : Store) (r : Redis) (now now2 now3 : Int)
    (tokCur tokOldA tokOldR tokNewA tokNewR : Token)
    (uid : Nat) (user : User) (jx jy : String) (w : Nat)
    (hu : st.findById uid = some user)
    (hsC : tokCur.sigValid = true) (heC : now < tokCur.claims.exp)
    (hkC : tokCur.claims.kind = TokenKind.access)
    (hbC : token_in_blocklist r now (some tokCur.claims.jti) = false)
    (hsubC : tokCur.claims.sub = uid)
    (hverC : tokCur.claims.ver = some user.token_version)
    (hw : w < user.token_version + 1)
    (hsA : tokOldA.sigValid = true) (heA : now2 < tokOldA.claims.exp)
    (hkA : tokOldA.claims.kind = TokenKind.access)
    (hbA : token_in_blocklist r now2 (some tokOldA.claims.jti) = false)
    (hsubA : tokOldA.claims.sub = uid) (hverA : tokOldA.claims.ver = some w)
    (hsR : tokOldR.sigValid = true) (heR : now2 < tokOldR.claims.exp)
    (hkR : tokOldR.claims.kind = TokenKind.refresh)
    (hbR : token_in_blocklist r now2 (some tokOldR.claims.jti) = false)
    (hsubR : tokOldR.claims.sub = uid) (hverR : tokOldR.claims.ver = some w)
    (hsNA : tokNewA.sigValid = true) (heNA : now3 < tokNewA.claims.exp)
    (hkNA : tokNewA.claims.kind = TokenKind.access)
    (hbNA : token_in_blocklist r now3 (some tokNewA.claims.jti) = false)
    (hsubNA : tokNewA.claims.sub = uid)
    (hverNA : tokNewA.claims.ver = some (user.token_version + 1))
    (hsNR : tokNewR.sigValid = true) (heNR : now3 < tokNewR.claims.exp)
    (hkNR : tokNewR.claims.kind = TokenKind.refresh)
    (hbNR : token_in_blocklist r now3 (some tokNewR.claims.jti) = false)
    (hsubNR : tokNewR.claims.sub = uid)
    (hverNR : tokNewR.claims.ver = some (user.token_version + 1)) :
    (logout_all st r now tokCur).2 = ⟨200, "All sessions revoked"⟩
    ∧ ((logout_all st r now tokCur).1).findById uid
        = some { user with token_version := user.token_version + 1 }
    ∧ refresh (logout_all st r now tokCur).1 r now2 tokOldR jx
        = ((logout_all st r now tokCur).1, r, ⟨401, "Token no longer valid"⟩, none)
    ∧ logout_all (logout_all st r now tokCur).1 r now2 tokOldA
        = ((logout_all st r now tokCur).1, ⟨401, "Token no longer valid"⟩)
    ∧ me (logout_all st r now tokCur).1 r now2 tokOldA
        = (⟨401, "Token no longer valid"⟩, none)
    ∧ (refresh (logout_all st r now tokCur).1 r now3 tokNewR jy).2.2.1
        = ⟨200, "refreshed"⟩
    ∧ (me (logout_all st r now tokCur).1 r now3 tokNewA).1 = ⟨200, "ok"⟩
    ∧ (logout_all (logout_all st r now tokCur).1 r now3 tokNewA).2
        = ⟨200, "All sessions revoked"⟩ := by
  have hid : user.id = uid := by
    have h := List.find?_some hu
    simpa using h
  have h200 : logout_all st r now tokCur
      = (st.updateUser user.id (fun u => { u with token_version := u.token_version + 1 }),
         ⟨200, "All sessions revoked"⟩) := by
    simp [logout_all, jwt_required_check, hsC, hkC, hbC, not_le.mpr heC, hsubC, hu, hverC,
      _assert_token_version_or_401]
  have hfind' : (st.updateUser user.id
        (fun u => { u with token_version := u.token_version + 1 })).findById uid
      = some { user with token_version := user.token_version + 1 } := by
    unfold Store.updateUser Store.findById
    simp only [List.find?_map]
    have hp : ((fun (u : User) => u.id == uid) ∘
        (fun (u : User) =>
          if u.id == user.id then { u with token_version := u.token_version + 1 }
          else u)) = fun (u : User) => u.id == uid := by
      funext u
      by_cases h : u.id = user.id
      · simp [Function.comp, h]
      · simp [Function.comp, h]
    rw [hp]
    have hu' : st.users.find? (fun u => u.id == uid) = some user := hu
    rw [hu']
    simp [hid]
  have hneq : user.token_version + 1 ≠ w := by omega
  refine ⟨by rw [h200], ?_, ?_, ?_, ?_, ?_, ?_, ?_⟩
  · rw [h200]
    exact hfind'
  · rw [h200]
    simp [refresh, jwt_required_check, hsR, hkR, hbR, not_le.mpr heR, hsubR, hfind',
      hverR, _assert_token_version_or_401, hneq]
  · rw [h200]
    simp [logout_all, jwt_required_check, hsA, hkA, hbA, not_le.mpr heA, hsubA, hfind',
      hverA, _assert_token_version_or_401, hneq]
  · rw [h200]
    simp [me, jwt_required_check, hsA, hkA, hbA, not_le.mpr heA, hsubA, hfind',
      hverA, _assert_token_version_or_401, hneq]
  · rw [h200]
    simp [refresh, jwt_required_check, hsNR, hkNR, hbNR, not_le.mpr heNR, hsubNR, hfind',
      hverNR, _assert_token_version_or_401]
  · rw [h200]
    simp [me, jwt_required_check, hsNA, hkNA, hbNA, not_le.mpr heNA, hsubNA, hfind',
      hverNA, _assert_token_version_or_401]
  · rw [h200]
    simp [logout_all, jwt_required_check, hsNA, hkNA, hbNA, not_le.mpr heNA, hsubNA, hfind',
      hverNA, _assert_token_version_or_401]

/-- Witness for C1 at a concrete one-user store: after the bump, the old
refresh token is rejected by `refresh` with 401 "Token no longer valid". -/
theorem C1_stale_epoch_rejection_witness :
    refresh (logout_all ⟨[⟨7, "A", "B", "a@x", "h", 1⟩], 2⟩ ⟨true, []⟩ 0
        ⟨⟨7, .access, "jc", 0, 100, some 1⟩, true⟩).1 ⟨true, []⟩ 1
        ⟨⟨7, .refresh, "jr", 0, 100, some 1⟩, true⟩ "x"
      = ((logout_all ⟨[⟨7, "A", "B", "a@x", "h", 1⟩], 2⟩ ⟨true, []⟩ 0
          ⟨⟨7, .access, "jc", 0, 100, some 1⟩, true⟩).1, ⟨true, []⟩,
         ⟨401, "Token no longer valid"⟩, none) :=
  (C1_stale_epoch_rejection ⟨[⟨7, "A", "B", "a@x", "h", 1⟩], 2⟩ ⟨true, []⟩ 0 1 2
    ⟨⟨7, .access, "jc", 0, 100, some 1⟩, true⟩
    ⟨⟨7, .access, "ja", 0, 100, some 1⟩, true⟩
    ⟨⟨7, .refresh, "jr", 0, 100, some 1⟩, true⟩
    ⟨⟨7, .access, "jna", 0, 100, some 2⟩, true⟩
    ⟨⟨7, .refresh, "jnr", 0, 100, some 2⟩, true⟩
    7 ⟨7, "A", "B", "a@x", "h", 1⟩ "x" "y" 1
    (by decide)
    rfl (by decide) rfl (by decide) rfl rfl
    (by decide)
    rfl (by decide) rfl (by decide) rfl rfl
    rfl (by decide) rfl (by decide) rfl rfl
    rfl (by decide) rfl (by decide) rfl rfl
    rfl (by decide) rfl (by decide) rfl rfl).2.2.1

end Backend
